import Mathlib

/-!
Verification of the hierarchical multi-agent simulation repository.

This file gives a shallow embedding, in Lean 4, of the parts of the
repository that the specification talks about:

* `src/mcp_server.py` — the sandboxed script executor `execute_python_code`,
  its pre-bound capability namespace `sandbox_globals`, its output capture
  and its error containment;
* `src/mcp_client.py` — the JSON-schema-to-pydantic translation
  `jsonschema_to_pydantic`, the mode-dependent tool filtering inside
  `mcp_server_context`, and the langgraph agent loop it wires up
  (agent node, tool node, conditional edge).

Python machinery that the repository merely calls (the `exec` builtin,
`contextlib.redirect_stdout`, pydantic model validation, the langgraph
`ToolNode` and `tools_condition`) is modelled explicitly: each such model
is documented at its definition.
-/

/-! ## Python string stripping

`execute_python_code` decides between its empty-output hint and the captured
output with `if not result.strip()`.  Python `str.strip()` with no argument
removes leading and trailing whitespace, where whitespace is what
`str.isspace()` accepts; `pyIsSpace` enumerates exactly the code points the
Unicode character database of CPython marks as whitespace. -/

/-- The whitespace characters recognised by Python `str.strip()` and
`str.isspace()`: the ASCII controls tab through carriage return, the file,
group, record and unit separators, space, next line, no-break space, the
Ogham space mark, the Zs space separators, and the line and paragraph
separators. -/
def pyIsSpace (c : Char) : Bool :=
  c = '\t' || c = '\n' || c = '\x0b' || c = '\x0c' || c = '\r'
  || c = '\x1c' || c = '\x1d' || c = '\x1e' || c = '\x1f' || c = ' '
  || c = '\x85' || c = '\xa0' || c = '\u1680'
  || c = '\u2000' || c = '\u2001' || c = '\u2002' || c = '\u2003'
  || c = '\u2004' || c = '\u2005' || c = '\u2006' || c = '\u2007'
  || c = '\u2008' || c = '\u2009' || c = '\u200a'
  || c = '\u2028' || c = '\u2029' || c = '\u202f' || c = '\u205f'
  || c = '\u3000'

/-- Strip leading and trailing whitespace from a character list, as Python
`str.strip()` does. -/
def pyStripList (l : List Char) : List Char :=
  ((l.dropWhile pyIsSpace).reverse.dropWhile pyIsSpace).reverse

/-- Python `str.strip()` on strings. -/
def pyStrip (s : String) : String :=
  String.mk (pyStripList s.data)

theorem dropWhile_all_iff (p : Char → Bool) (l : List Char) :
    (∀ x ∈ l.dropWhile p, p x) ↔ ∀ x ∈ l, p x := by
  constructor
  · intro h x hx
    rw [← List.takeWhile_append_dropWhile p l] at hx
    rcases List.mem_append.mp hx with h1 | h2
    · exact List.mem_takeWhile_imp h1
    · exact h x h2
  · intro h x hx
    exact h x ((List.dropWhile_sublist p).subset hx)

/-- The stripped character list is empty exactly when every character is
whitespace. -/
theorem pyStripList_eq_nil_iff (l : List Char) :
    pyStripList l = [] ↔ l.all pyIsSpace = true := by
  unfold pyStripList
  rw [List.reverse_eq_nil_iff, List.dropWhile_eq_nil_iff, List.all_eq_true]
  constructor
  · intro h
    rw [← dropWhile_all_iff pyIsSpace l]
    intro x hx
    exact h x (List.mem_reverse.mpr hx)
  · intro h x hx
    exact (dropWhile_all_iff pyIsSpace l).mpr h x (List.mem_reverse.mp hx)

/-- `pyStrip` of a string is empty exactly when every character of the
string is whitespace. -/
theorem pyStrip_eq_empty_iff (s : String) :
    pyStrip s = "" ↔ s.data.all pyIsSpace = true := by
  unfold pyStrip
  rw [← pyStripList_eq_nil_iff]
  constructor
  · intro h
    have := congrArg String.data h
    simpa using this
  · intro h
    rw [h]

/-! ## The sandboxed script executor (`src/mcp_server.py`)

`execute_python_code` builds a globals dictionary `sandbox_globals` binding
the four capability functions, one alias for each, and `print`; it then runs
the submitted script with `exec(code, sandbox_globals)` under
`contextlib.redirect_stdout(output_capture)`.

The Python `exec` builtin is modelled by a script *behavior*: run against a
namespace, a script emits an ordered list of output chunks (what the script
wrote to the redirected stdout) and either completes or ends in an unhandled
exception carrying a formatted trace (`traceback.format_exc()`).
`redirect_stdout` is modelled by routing every chunk the script writes into
the capture buffer while the stream of the real host stdout is left
untouched. -/

/-- A value bound in the sandbox namespace: one of the capability functions
(string to string), or the output primitive `print`. -/
inductive SandboxVal where
  | func : (String → String) → SandboxVal
  | printPrim : SandboxVal

/-- The globals dictionary built by `execute_python_code`, as an ordered
association list: the four tool functions, a convenience alias for each,
and `print`.  Mirrors the `sandbox_globals = { ... }` literal in
`src/mcp_server.py`. -/
def sandbox_globals (get_part_id get_stock_level get_supplier_location
    get_shipping_cost : String → String) : List (String × SandboxVal) :=
  [("get_part_id", SandboxVal.func get_part_id),
   ("find_part_id", SandboxVal.func get_part_id),
   ("get_stock_level", SandboxVal.func get_stock_level),
   ("check_stock", SandboxVal.func get_stock_level),
   ("get_supplier_location", SandboxVal.func get_supplier_location),
   ("find_supplier_city", SandboxVal.func get_supplier_location),
   ("get_shipping_cost", SandboxVal.func get_shipping_cost),
   ("calculate_shipping", SandboxVal.func get_shipping_cost),
   ("print", SandboxVal.printPrim)]

/-- What a script does when run against a namespace: the ordered chunks it
writes to the (redirected) stdout, and `some trace` when it ends in an
unhandled exception whose formatted trace is `trace`. -/
structure ScriptBehavior where
  chunks : List String
  exc : Option String

/-- Python `print(x)`: writes the text of its argument followed by a
newline to the current stdout. -/
def pyPrint (s : String) : String := s ++ "\n"

/-- The text returned on the unhandled-exception path of
`execute_python_code`, before the formatted trace. -/
def runtime_error_header : String := "RUNTIME ERROR:\n"

/-- The corrective hint returned when the captured output strips to the
empty string. -/
def empty_output_hint : String :=
  "Code executed successfully but printed no output. Did you forget print()?"

/-- Shallow embedding of `execute_python_code` from `src/mcp_server.py`.
The four tool functions parametrise the namespace; `script` is the behavior
of the submitted code as a function of the namespace it is executed
against; `host` is the content of the real host stdout, threaded through to
show that the executor never writes to it.  Returns the reply string
together with the (unchanged) host stdout.

Faithful to the source: on an unhandled exception the reply is
`"RUNTIME ERROR:\n"` followed by the trace; otherwise the captured chunks
are joined and, when the join strips to empty, the distinguished hint is
returned instead. -/
def execute_python_code (get_part_id get_stock_level get_supplier_location
    get_shipping_cost : String → String)
    (script : List (String × SandboxVal) → ScriptBehavior)
    (host : List String) : String × List String :=
  let b := script (sandbox_globals get_part_id get_stock_level
    get_supplier_location get_shipping_cost)
  match b.exc with
  | some trace => (runtime_error_header ++ trace, host)
  | none =>
    let result := String.join b.chunks
    if pyStrip result = "" then (empty_output_hint, host)
    else (result, host)

/-! ## Schema translation (`jsonschema_to_pydantic`, `src/mcp_client.py`)

`jsonschema_to_pydantic` walks the `properties` of the JSON-Schema-like
descriptor; for each parameter it looks the declared `type` up in
`type_map` (defaulting the declared type to `"string"` when absent and the
looked-up Python type to `str` when unknown), marks the field required
exactly when its name occurs in the `required` list (pydantic default
`...`, the Ellipsis), and otherwise gives it default `None`. -/

/-- The Python types a declared JSON type is mapped to. -/
inductive PyType where
  | str | int | float | bool | list | dict
deriving DecidableEq

/-- The `type_map` dictionary of `jsonschema_to_pydantic`. -/
def type_map : List (String × PyType) :=
  [("string", PyType.str),
   ("integer", PyType.int),
   ("number", PyType.float),
   ("boolean", PyType.bool),
   ("array", PyType.list),
   ("object", PyType.dict)]

/-- The declared JSON type names that `type_map` knows. -/
def known_types : List String :=
  ["string", "integer", "number", "boolean", "array", "object"]

/-- One entry of the `properties` mapping of a capability descriptor:
optional declared `type` and optional `description`. -/
structure FieldDetail where
  type : Option String
  description : Option String

/-- A capability descriptor parameter specification: the `properties`
association list and the `required` name list, as
`jsonschema_to_pydantic` reads them with `schema.get`. -/
structure Schema where
  properties : List (String × FieldDetail)
  required : List String

/-- The pydantic field default produced by the translation: `...`
(Ellipsis, field required) or `None` (field optional, absent/null). -/
inductive PyDefault where
  | ellipsis | pyNone
deriving DecidableEq

/-- One field of the generated pydantic model. -/
structure PydField where
  pyType : PyType
  default : PyDefault
  description : String
deriving DecidableEq

/-- The loop body of `jsonschema_to_pydantic` for a single property:
declared type defaulted to `"string"`, looked up in `type_map` with
fallback `str`; default `...` exactly when the name is listed in
`required`, else `None`. -/
def translate_field (required : List String) (field_name : String)
    (detail : FieldDetail) : PydField :=
  let json_type := detail.type.getD "string"
  let py_type := (type_map.lookup json_type).getD PyType.str
  let is_required := required.contains field_name
  let dflt := if is_required then PyDefault.ellipsis else PyDefault.pyNone
  ⟨py_type, dflt, detail.description.getD ""⟩

/-- Shallow embedding of `jsonschema_to_pydantic` from `src/mcp_client.py`:
the generated pydantic model, as the ordered list of its named fields. -/
def jsonschema_to_pydantic (schema : Schema) : List (String × PydField) :=
  schema.properties.map (fun p => (p.1, translate_field schema.required p.1 p.2))

/-! ## Invocation through a StructuredTool

`mcp_server_context` wraps every discovered capability in a langchain
`StructuredTool` whose `args_schema` is the generated pydantic model and
whose coroutine performs the MCP round trip
(`session.call_tool(tool_name, arguments=kwargs)`).  Invoking a
`StructuredTool` first validates the argument mapping against the pydantic
model; a field whose default is `...` (Ellipsis) and which is absent from
the arguments makes validation raise, and the coroutine — hence the round
trip — is never entered.  That pydantic/langchain validation step is
modelled here by `missing_required` and `invoke_tool`. -/

/-- The names of the required fields of the model that are absent from the
argument mapping.  Models pydantic validation of the generated model: a
field with default `...` must be supplied. -/
def missing_required (fields : List (String × PydField))
    (args : List (String × String)) : List String :=
  (fields.filter
    (fun p => p.2.default = PyDefault.ellipsis && (args.lookup p.1).isNone)).map
    Prod.fst

/-- Invoking a wrapped capability: validate the arguments against the
generated model, then dispatch the round trip.  Returns the outcome
together with the number of round trips performed: a validation failure
raises (as `Except.error` naming the missing fields) with zero round trips;
otherwise the coroutine runs exactly one round trip. -/
def invoke_tool (fields : List (String × PydField))
    (args : List (String × String))
    (round_trip : List (String × String) → String) :
    Except String String × Nat :=
  let missing := missing_required fields args
  if missing.isEmpty then (Except.ok (round_trip args), 1)
  else (Except.error ("validation error, missing required: "
    ++ String.join missing), 0)

/-! ## Mode-dependent tool filtering (`mcp_server_context`)

The discovery loop of `mcp_server_context` skips a discovered tool exactly
when the session mode is `"standard"` and the tool is named
`execute_python_code`; every other discovered tool is wrapped and bound to
the agent, in discovery order. -/

/-- The names of the tools bound to the agent, given the session mode and
the names the server advertises.  Mirrors the
`if mode == "standard" and tool.name == "execute_python_code": continue`
filter in `mcp_server_context`. -/
def load_langchain_tools (mode : String) (advertised : List String) :
    List String :=
  advertised.filter
    (fun toolName => !(mode == "standard" && toolName == "execute_python_code"))

/-! ## The agent loop (langgraph wiring in `mcp_server_context`)

`mcp_server_context` compiles a `StateGraph` with the agent node (one model
call), a `ToolNode`, an edge `START -> agent`, the conditional edge
`tools_condition` out of the agent (to the tool node when the last model
message carries tool calls, to `END` otherwise), and an edge
`tools -> agent`.  The resulting behavior is the loop embedded below:

* a turn of conversation state is a system directive, a human query, a
  model response (text plus requested invocations), or an invocation
  result (call identifier, success flag, payload or error detail);
* the model is an external collaborator, a function from the conversation
  to a response;
* the `ToolNode` executes each requested invocation in request order and
  appends one result turn per request; a raised error (transport or tool)
  is captured into a result turn with the success flag false rather than
  propagated — the langgraph `ToolNode` error containment;
* `tools_condition` ends the loop exactly when the model response carries
  no invocation requests, and the text of that response is the final
  answer. -/

/-- An invocation request: call identifier, capability name, argument
mapping. -/
structure CallReq where
  id : String
  cap : String
  args : List (String × String)
deriving DecidableEq

/-- A model response: its text and the requested invocations (possibly
none, in which case the response is final). -/
structure ModelResponse where
  text : String
  calls : List CallReq

/-- One turn of the conversation state. -/
inductive Turn where
  | system : String → Turn
  | human : String → Turn
  | model : String → List CallReq → Turn
  | result : String → Bool → String → Turn
deriving DecidableEq

/-- Execution of one requested invocation by the tool node: a raised error
(`Except.error`, transport or tool) becomes a result turn with success
flag `false` carrying the error detail; a returned payload becomes a
result turn with success flag `true`. -/
def execCall (execTool : CallReq → Except String String) (c : CallReq) :
    Turn :=
  match execTool c with
  | Except.ok payload => Turn.result c.id true payload
  | Except.error err => Turn.result c.id false err

/-- The agent loop: ask the model, append its response to the conversation;
when it carries no invocation requests the loop terminates with that text
as the final answer, otherwise every request is executed in order, the
result turns are appended, and the loop proceeds to the next model turn.
`fuel` is the external iteration budget (the state machine itself imposes
no turn cap); `none` means the budget ran out. -/
def agent_loop (modelCall : List Turn → ModelResponse)
    (execTool : CallReq → Except String String) :
    Nat → List Turn → Option (String × List Turn)
  | 0, _ => none
  | fuel + 1, conv =>
    let resp := modelCall conv
    let conv2 := conv ++ [Turn.model resp.text resp.calls]
    if resp.calls.isEmpty then some (resp.text, conv2)
    else agent_loop modelCall execTool fuel
      (conv2 ++ resp.calls.map (execCall execTool))

/-! ## Claims about the sandboxed executor -/

/-- C1: for every script submitted to the sandboxed executor,
`execute_python_code` returns a value; an unhandled failure raised while
running the script is caught and returned as a runtime-error outcome
carrying the header `"RUNTIME ERROR:\n"` followed by the formatted failure
trace, and the executor (a total function in this embedding, mirroring the
enclosing `try`/`except` of the source) never raises to its caller. -/
theorem c1_runtime_error_contained
    (gpi gsl gsup gsc : String → String)
    (script : List (String × SandboxVal) → ScriptBehavior)
    (host : List String) (trace : String)
    (h : (script (sandbox_globals gpi gsl gsup gsc)).exc = some trace) :
    execute_python_code gpi gsl gsup gsc script host
      = (runtime_error_header ++ trace, host) := by
  simp [execute_python_code, h]

/-- A stub capability function used for concrete evaluations. -/
def stub_tool : String → String := fun _ => "stub"

/-- A script that writes one chunk and then ends in an unhandled
exception. -/
def crash_script : List (String × SandboxVal) → ScriptBehavior :=
  fun _ => ⟨["before the crash\n"], some "ZeroDivisionError: division by zero"⟩

theorem c1_witness :
    execute_python_code stub_tool stub_tool stub_tool stub_tool
      crash_script []
      = ("RUNTIME ERROR:\nZeroDivisionError: division by zero", []) :=
  c1_runtime_error_contained stub_tool stub_tool stub_tool stub_tool
    crash_script [] "ZeroDivisionError: division by zero" rfl

/-- C6: a script that completes without an unhandled failure and produces
no textual output yields the distinguished empty-output corrective hint,
which is neither a runtime-error outcome (it does not start with the
runtime-error header) nor the ordinary captured output. -/
theorem c6_empty_output_gives_hint
    (gpi gsl gsup gsc : String → String)
    (script : List (String × SandboxVal) → ScriptBehavior)
    (host : List String)
    (hexc : (script (sandbox_globals gpi gsl gsup gsc)).exc = none)
    (hjoin : String.join
      (script (sandbox_globals gpi gsl gsup gsc)).chunks = "") :
    execute_python_code gpi gsl gsup gsc script host
        = (empty_output_hint, host)
      ∧ runtime_error_header.data.isPrefixOf empty_output_hint.data = false
      ∧ empty_output_hint
          ≠ String.join (script (sandbox_globals gpi gsl gsup gsc)).chunks := by
  refine ⟨?_, by decide, ?_⟩
  · have hstrip : pyStrip "" = "" := by decide
    simp [execute_python_code, hexc, hjoin, hstrip]
  · rw [hjoin]
    decide

/-- A script that calls no output primitive at all. -/
def silent_script : List (String × SandboxVal) → ScriptBehavior :=
  fun _ => ⟨[], none⟩

theorem c6_witness :
    execute_python_code stub_tool stub_tool stub_tool stub_tool
        silent_script []
      = ("Code executed successfully but printed no output. Did you forget print()?", [])
      ∧ runtime_error_header.data.isPrefixOf empty_output_hint.data = false := by
  have h := c6_empty_output_gives_hint stub_tool stub_tool stub_tool stub_tool
    silent_script [] rfl rfl
  exact ⟨h.1, h.2.1⟩

/-- C7: a script that produces textual output (captured output with at
least one non-whitespace character, which is what the source treats as
output) and completes without an unhandled failure gets back exactly the
join, in order, of every chunk it wrote, and the real standard output of
the host is unchanged. -/
theorem c7_output_collected_in_order
    (gpi gsl gsup gsc : String → String)
    (script : List (String × SandboxVal) → ScriptBehavior)
    (host : List String)
    (hexc : (script (sandbox_globals gpi gsl gsup gsc)).exc = none)
    (htext : (String.join
        (script (sandbox_globals gpi gsl gsup gsc)).chunks).data.all
        pyIsSpace = false) :
    execute_python_code gpi gsl gsup gsc script host
      = (String.join (script (sandbox_globals gpi gsl gsup gsc)).chunks,
         host) := by
  have hne : ¬ (pyStrip (String.join
      (script (sandbox_globals gpi gsl gsup gsc)).chunks) = "") := by
    rw [pyStrip_eq_empty_iff, htext]
    intro hcontra
    exact Bool.false_ne_true hcontra
  simp [execute_python_code, hexc, hne]

/-- The part-lookup stub of the specification scenario: maps `"Engine"` to
`"ID-7"`. -/
def engine_stub : String → String :=
  fun part => if part = "Engine" then "ID-7" else "Part not found"

/-- The specification scenario script: looks up `get_part_id` in the
namespace it is executed against, applies it to `"Engine"` and prints the
result; if the name were unbound the script would end in a NameError. -/
def engine_script : List (String × SandboxVal) → ScriptBehavior :=
  fun g =>
    match g.lookup "get_part_id" with
    | some (SandboxVal.func f) => ⟨[pyPrint (f "Engine")], none⟩
    | _ => ⟨[], some "NameError: name get_part_id is not defined"⟩

theorem c7_witness :
    execute_python_code engine_stub stub_tool stub_tool stub_tool
      engine_script [] = ("ID-7\n", []) := by
  have h := c7_output_collected_in_order engine_stub stub_tool stub_tool
    stub_tool engine_script [] rfl (by decide)
  simpa using h

/-- C10: with no unhandled failure, captured output that consists only of
whitespace characters is treated the same as no output at all (the
empty-output hint is returned), and captured output with at least one
non-whitespace character is returned verbatim, leading and trailing
whitespace and newlines included. -/
theorem c10_whitespace_only_is_empty
    (gpi gsl gsup gsc : String → String)
    (script : List (String × SandboxVal) → ScriptBehavior)
    (host : List String)
    (hexc : (script (sandbox_globals gpi gsl gsup gsc)).exc = none) :
    ((String.join (script (sandbox_globals gpi gsl gsup gsc)).chunks).data.all
        pyIsSpace = true →
      execute_python_code gpi gsl gsup gsc script host
        = (empty_output_hint, host))
    ∧ ((String.join
        (script (sandbox_globals gpi gsl gsup gsc)).chunks).data.all
        pyIsSpace = false →
      execute_python_code gpi gsl gsup gsc script host
        = (String.join (script (sandbox_globals gpi gsl gsup gsc)).chunks,
           host)) := by
  constructor
  · intro hall
    have hstrip : pyStrip (String.join
        (script (sandbox_globals gpi gsl gsup gsc)).chunks) = "" :=
      (pyStrip_eq_empty_iff _).mpr hall
    simp [execute_python_code, hexc, hstrip]
  · intro hall
    have hne : ¬ (pyStrip (String.join
        (script (sandbox_globals gpi gsl gsup gsc)).chunks) = "") := by
      rw [pyStrip_eq_empty_iff, hall]
      intro hcontra
      exact Bool.false_ne_true hcontra
    simp [execute_python_code, hexc, hne]

/-- A script that prints only blanks: its captured output is whitespace
only. -/
def blank_script : List (String × SandboxVal) → ScriptBehavior :=
  fun _ => ⟨[pyPrint "  ", "\t\n"], none⟩

/-- A script whose output carries leading and trailing whitespace around a
non-whitespace core. -/
def padded_script : List (String × SandboxVal) → ScriptBehavior :=
  fun _ => ⟨["  leading and trailing  \n"], none⟩

theorem c10_witness :
    execute_python_code stub_tool stub_tool stub_tool stub_tool
        blank_script []
      = ("Code executed successfully but printed no output. Did you forget print()?", [])
    ∧ execute_python_code stub_tool stub_tool stub_tool stub_tool
        padded_script []
      = ("  leading and trailing  \n", []) := by
  have hb := (c10_whitespace_only_is_empty stub_tool stub_tool stub_tool
    stub_tool blank_script [] rfl).1 (by decide)
  have hp := (c10_whitespace_only_is_empty stub_tool stub_tool stub_tool
    stub_tool padded_script [] rfl).2 (by decide)
  constructor
  · simpa using hb
  · simpa using hp

/-- C8: the namespace the submitted script runs against binds exactly the
nine enumerated names — the four capability functions, their four
convenience aliases (each alias bound to the same function as its
primary), and the output primitive `print` — and is otherwise empty: the
list of bound names is exactly that nine-name list. -/
theorem c8_sandbox_namespace_exact
    (gpi gsl gsup gsc : String → String) :
    (sandbox_globals gpi gsl gsup gsc).map Prod.fst
      = ["get_part_id", "find_part_id", "get_stock_level", "check_stock",
         "get_supplier_location", "find_supplier_city", "get_shipping_cost",
         "calculate_shipping", "print"]
    ∧ (sandbox_globals gpi gsl gsup gsc).lookup "get_part_id"
        = some (SandboxVal.func gpi)
    ∧ (sandbox_globals gpi gsl gsup gsc).lookup "find_part_id"
        = some (SandboxVal.func gpi)
    ∧ (sandbox_globals gpi gsl gsup gsc).lookup "get_stock_level"
        = some (SandboxVal.func gsl)
    ∧ (sandbox_globals gpi gsl gsup gsc).lookup "check_stock"
        = some (SandboxVal.func gsl)
    ∧ (sandbox_globals gpi gsl gsup gsc).lookup "get_supplier_location"
        = some (SandboxVal.func gsup)
    ∧ (sandbox_globals gpi gsl gsup gsc).lookup "find_supplier_city"
        = some (SandboxVal.func gsup)
    ∧ (sandbox_globals gpi gsl gsup gsc).lookup "get_shipping_cost"
        = some (SandboxVal.func gsc)
    ∧ (sandbox_globals gpi gsl gsup gsc).lookup "calculate_shipping"
        = some (SandboxVal.func gsc)
    ∧ (sandbox_globals gpi gsl gsup gsc).lookup "print"
        = some SandboxVal.printPrim :=
  ⟨rfl, rfl, rfl, rfl, rfl, rfl, rfl, rfl, rfl, rfl⟩

/-! ## Claims about schema translation and invocation -/

/-- C2: schema translation maps the declared type string to `str`, integer
to `int`, number to `float`, boolean to `bool`, array to `list` and object
to `dict`; any other or missing declared type defaults to `str`; and the
translation is total (one translated field per declared property), so it
does not raise on an unknown declared type. -/
theorem c2_declared_type_mapping :
    (∀ req fn d, d.type = some "string" →
      (translate_field req fn d).pyType = PyType.str)
    ∧ (∀ req fn d, d.type = some "integer" →
      (translate_field req fn d).pyType = PyType.int)
    ∧ (∀ req fn d, d.type = some "number" →
      (translate_field req fn d).pyType = PyType.float)
    ∧ (∀ req fn d, d.type = some "boolean" →
      (translate_field req fn d).pyType = PyType.bool)
    ∧ (∀ req fn d, d.type = some "array" →
      (translate_field req fn d).pyType = PyType.list)
    ∧ (∀ req fn d, d.type = some "object" →
      (translate_field req fn d).pyType = PyType.dict)
    ∧ (∀ req fn d, d.type = none →
      (translate_field req fn d).pyType = PyType.str)
    ∧ (∀ req fn d t, d.type = some t → t ∉ known_types →
      (translate_field req fn d).pyType = PyType.str)
    ∧ (∀ schema, (jsonschema_to_pydantic schema).length
        = schema.properties.length) := by
  refine ⟨?_, ?_, ?_, ?_, ?_, ?_, ?_, ?_, ?_⟩
  · intro req fn d h
    simp [translate_field, h, type_map]
  · intro req fn d h
    simp only [translate_field, h]
    rfl
  · intro req fn d h
    simp only [translate_field, h]
    rfl
  · intro req fn d h
    simp only [translate_field, h]
    rfl
  · intro req fn d h
    simp only [translate_field, h]
    rfl
  · intro req fn d h
    simp only [translate_field, h]
    rfl
  · intro req fn d h
    simp [translate_field, h, type_map]
  · intro req fn d t h hnot
    simp only [known_types, List.mem_cons, List.not_mem_nil, or_false,
      not_or] at hnot
    obtain ⟨h1, h2, h3, h4, h5, h6⟩ := hnot
    have b1 : (t == "string") = false := beq_eq_false_iff_ne.mpr h1
    have b2 : (t == "integer") = false := beq_eq_false_iff_ne.mpr h2
    have b3 : (t == "number") = false := beq_eq_false_iff_ne.mpr h3
    have b4 : (t == "boolean") = false := beq_eq_false_iff_ne.mpr h4
    have b5 : (t == "array") = false := beq_eq_false_iff_ne.mpr h5
    have b6 : (t == "object") = false := beq_eq_false_iff_ne.mpr h6
    simp [translate_field, h, type_map, List.lookup, b1, b2, b3, b4, b5, b6]
  · intro schema
    simp [jsonschema_to_pydantic]

theorem c2_witness :
    (translate_field [] "count" ⟨some "integer", none⟩).pyType = PyType.int
    ∧ (translate_field [] "blob" ⟨some "frobnicate", none⟩).pyType
        = PyType.str
    ∧ (translate_field [] "raw" ⟨none, none⟩).pyType = PyType.str := by
  refine ⟨?_, ?_, ?_⟩
  · exact c2_declared_type_mapping.2.1 [] "count" ⟨some "integer", none⟩ rfl
  · exact c2_declared_type_mapping.2.2.2.2.2.2.2.1 [] "blob"
      ⟨some "frobnicate", none⟩ "frobnicate" rfl (by decide)
  · exact c2_declared_type_mapping.2.2.2.2.2.2.1 [] "raw" ⟨none, none⟩ rfl

/-- C3: a parameter of the derived invocation contract is required (pydantic
default `...`) iff it is listed in the `required` list of the descriptor;
every other parameter gets default `None`; invoking with an argument
mapping missing a required parameter fails closed — the validation error is
raised with zero round trips performed; and an argument mapping supplying
every required parameter passes validation and is dispatched with exactly
one round trip. -/
theorem c3_required_fields_fail_closed :
    (∀ (schema : Schema) (fn : String) (f : PydField),
      (fn, f) ∈ jsonschema_to_pydantic schema →
      (f.default = PyDefault.ellipsis ↔ fn ∈ schema.required))
    ∧ (∀ (schema : Schema) (fn : String) (f : PydField),
      (fn, f) ∈ jsonschema_to_pydantic schema →
      fn ∉ schema.required → f.default = PyDefault.pyNone)
    ∧ (∀ (fields : List (String × PydField)) (args : List (String × String))
        (rt : List (String × String) → String) (fn : String) (f : PydField),
      (fn, f) ∈ fields → f.default = PyDefault.ellipsis →
      args.lookup fn = none →
      (invoke_tool fields args rt).2 = 0
        ∧ ∃ e, (invoke_tool fields args rt).1 = Except.error e)
    ∧ (∀ (fields : List (String × PydField)) (args : List (String × String))
        (rt : List (String × String) → String),
      (∀ fn f, (fn, f) ∈ fields → f.default = PyDefault.ellipsis →
        (args.lookup fn).isSome = true) →
      invoke_tool fields args rt = (Except.ok (rt args), 1)) := by
  refine ⟨?_, ?_, ?_, ?_⟩
  · intro schema fn f hmem
    rcases List.mem_map.mp hmem with ⟨p, hp, heq⟩
    obtain ⟨hfst, hsnd⟩ := Prod.mk.injEq _ _ _ _ ▸ heq
    subst hfst
    subst hsnd
    by_cases hc : p.1 ∈ schema.required
    · simp [translate_field, List.elem_iff, hc]
    · simp [translate_field, List.elem_iff, hc]
  · intro schema fn f hmem hnot
    rcases List.mem_map.mp hmem with ⟨p, hp, heq⟩
    obtain ⟨hfst, hsnd⟩ := Prod.mk.injEq _ _ _ _ ▸ heq
    subst hfst
    subst hsnd
    simp [translate_field, List.elem_iff, hnot]
  · intro fields args rt fn f hmem hdef hlook
    have hmem2 : (fn, f) ∈ fields.filter
        (fun p => p.2.default = PyDefault.ellipsis
          && (args.lookup p.1).isNone) :=
      List.mem_filter.mpr ⟨hmem, by simp [hdef, hlook]⟩
    have hnonnil : missing_required fields args ≠ [] := by
      intro h0
      unfold missing_required at h0
      rw [List.map_eq_nil_iff] at h0
      rw [h0] at hmem2
      exact List.not_mem_nil _ hmem2
    have hfalse : (missing_required fields args).isEmpty = false :=
      List.isEmpty_eq_false.mpr hnonnil
    refine ⟨?_, ?_⟩
    · simp [invoke_tool, hfalse]
    · refine ⟨"validation error, missing required: "
        ++ String.join (missing_required fields args), ?_⟩
      simp [invoke_tool, hfalse]
  · intro fields args rt h
    have hm : missing_required fields args = [] := by
      unfold missing_required
      rw [List.map_eq_nil_iff, List.filter_eq_nil_iff]
      intro p hp hpred
      rw [Bool.and_eq_true] at hpred
      have hd : p.2.default = PyDefault.ellipsis := by
        simpa using hpred.1
      have hn := hpred.2
      have hs := h p.1 p.2 hp hd
      rw [Option.isNone_iff_eq_none] at hn
      rw [hn] at hs
      exact absurd hs (by simp)
    simp [invoke_tool, hm]

/-- The descriptor of the specification scenario: one parameter `id` of
declared type string, listed as required. -/
def lookup_schema : Schema :=
  ⟨[("id", ⟨some "string", some "identifier"⟩)], ["id"]⟩

/-- A mocked round trip that echoes a fixed payload. -/
def echo_rt : List (String × String) → String := fun _ => "echo"

theorem c3_witness :
    (("id", (⟨PyType.str, PyDefault.ellipsis, "identifier"⟩ : PydField))
        ∈ jsonschema_to_pydantic lookup_schema
      ∧ ((⟨PyType.str, PyDefault.ellipsis, "identifier"⟩ : PydField).default
          = PyDefault.ellipsis ↔ "id" ∈ lookup_schema.required))
    ∧ ((invoke_tool (jsonschema_to_pydantic lookup_schema) [] echo_rt).2 = 0
      ∧ ∃ e, (invoke_tool (jsonschema_to_pydantic lookup_schema) []
          echo_rt).1 = Except.error e)
    ∧ invoke_tool (jsonschema_to_pydantic lookup_schema) [("id", "X-1")]
        echo_rt = (Except.ok "echo", 1) := by
  have hmem : ("id", (⟨PyType.str, PyDefault.ellipsis, "identifier"⟩ : PydField))
      ∈ jsonschema_to_pydantic lookup_schema := by decide
  refine ⟨⟨hmem, c3_required_fields_fail_closed.1 lookup_schema "id" _ hmem⟩,
    c3_required_fields_fail_closed.2.2.1 (jsonschema_to_pydantic lookup_schema)
      [] echo_rt "id" _ hmem rfl rfl,
    c3_required_fields_fail_closed.2.2.2 (jsonschema_to_pydantic lookup_schema)
      [("id", "X-1")] echo_rt ?_⟩
  intro fn f hf hdef
  have hconc : jsonschema_to_pydantic lookup_schema
      = [("id", (⟨PyType.str, PyDefault.ellipsis, "identifier"⟩ : PydField))] :=
    rfl
  rw [hconc] at hf
  have heq := List.mem_singleton.mp hf
  have hfn : fn = "id" := congrArg Prod.fst heq
  rw [hfn]
  decide

/-- C9: in mode `"standard"` the capability `execute_python_code` is
excluded from the tool set bound to the agent even when advertised, every
other advertised capability is retained, and in every other mode
(including `"code"`) the bound tool set is exactly the advertised set. -/
theorem c9_standard_mode_excludes_code_tool (advertised : List String) :
    ("execute_python_code" ∉ load_langchain_tools "standard" advertised)
    ∧ (∀ n ∈ advertised, n ≠ "execute_python_code" →
      n ∈ load_langchain_tools "standard" advertised)
    ∧ (∀ mode, mode ≠ "standard" →
      load_langchain_tools mode advertised = advertised) := by
  refine ⟨?_, ?_, ?_⟩
  · intro hmem
    have := (List.mem_filter.mp hmem).2
    simp at this
  · intro n hn hne
    refine List.mem_filter.mpr ⟨hn, ?_⟩
    simp [load_langchain_tools, hne]
  · intro mode hmode
    rw [load_langchain_tools, List.filter_eq_self]
    intro a _
    simp [hmode]

theorem c9_witness :
    ("execute_python_code" ∉ load_langchain_tools "standard"
        ["find_part_id", "check_stock", "execute_python_code"])
    ∧ "check_stock" ∈ load_langchain_tools "standard"
        ["find_part_id", "check_stock", "execute_python_code"]
    ∧ load_langchain_tools "code"
        ["find_part_id", "check_stock", "execute_python_code"]
      = ["find_part_id", "check_stock", "execute_python_code"]
    ∧ load_langchain_tools "standard"
        ["find_part_id", "check_stock", "execute_python_code"]
      = ["find_part_id", "check_stock"] := by
  have h := c9_standard_mode_excludes_code_tool
    ["find_part_id", "check_stock", "execute_python_code"]
  exact ⟨h.1, h.2.1 "check_stock" (by decide) (by decide),
    h.2.2 "code" (by decide), by decide⟩

/-! ## Claims about the control loop -/

/-- C5: when the model response carries zero invocation requests, the
response is final: the loop returns that text as the final answer with the
response appended as the last turn — no result turn is appended and no
invocation is dispatched. -/
theorem c5_final_response_terminates
    (modelCall : List Turn → ModelResponse)
    (execTool : CallReq → Except String String)
    (fuel : Nat) (conv : List Turn)
    (h : (modelCall conv).calls = []) :
    agent_loop modelCall execTool (fuel + 1) conv
      = some ((modelCall conv).text,
          conv ++ [Turn.model (modelCall conv).text []]) := by
  simp [agent_loop, h]

/-- A model that answers immediately, with no invocation requests. -/
def direct_model : List Turn → ModelResponse :=
  fun _ => ⟨"the final answer", []⟩

/-- A tool backend that should never be consulted in the direct-answer
scenario. -/
def idle_tool : CallReq → Except String String :=
  fun _ => Except.ok "unused"

theorem c5_witness :
    agent_loop direct_model idle_tool 1 [Turn.human "a question"]
      = some ("the final answer",
          [Turn.human "a question", Turn.model "the final answer" []]) := by
  have h := c5_final_response_terminates direct_model idle_tool 0
    [Turn.human "a question"] rfl
  simpa using h

/-- C4: when the model response carries several invocation requests and one
of them fails, the failing invocation does not halt its siblings: the loop
step appends the model turn, one result turn per request in request order —
the failing call recorded with success flag `false` and its error detail —
and proceeds to the next model turn (the loop recurses instead of
terminating); moreover a sibling whose round trip returns a payload is
recorded with success flag `true`. -/
theorem c4_failed_call_keeps_siblings :
    (∀ (modelCall : List Turn → ModelResponse)
       (execTool : CallReq → Except String String)
       (fuel : Nat) (conv : List Turn) (pre post : List CallReq)
       (cf : CallReq) (e : String),
      (modelCall conv).calls = pre ++ cf :: post →
      execTool cf = Except.error e →
      agent_loop modelCall execTool (fuel + 1) conv
        = agent_loop modelCall execTool fuel
            (conv ++ [Turn.model (modelCall conv).text (pre ++ cf :: post)]
              ++ pre.map (execCall execTool)
              ++ [Turn.result cf.id false e]
              ++ post.map (execCall execTool)))
    ∧ (∀ (execTool : CallReq → Except String String) (c : CallReq)
        (p : String),
      execTool c = Except.ok p →
      execCall execTool c = Turn.result c.id true p) := by
  constructor
  · intro modelCall execTool fuel conv pre post cf e hcalls hfail
    have hne : (pre ++ cf :: post).isEmpty = false := by
      cases pre <;> rfl
    have hcf : execCall execTool cf = Turn.result cf.id false e := by
      simp [execCall, hfail]
    simp [agent_loop, hcalls, hne, List.map_append, hcf,
      List.append_assoc]
  · intro execTool c p h
    simp [execCall, h]

/-- The first invocation request of the specification scenario, directed at
capability `A`. -/
def c1req : CallReq := ⟨"c1", "A", []⟩

/-- The second invocation request of the specification scenario, directed
at capability `B`. -/
def c2req : CallReq := ⟨"c2", "B", []⟩

/-- A model that first requests the two invocations of the scenario and,
once the conversation has grown, answers with a final response. -/
def two_call_model : List Turn → ModelResponse :=
  fun conv =>
    if conv.length = 0 then ⟨"calling tools", [c1req, c2req]⟩
    else ⟨"done", []⟩

/-- A backend where the call `c1` fails with a transport error and every
other call succeeds. -/
def one_failing_tool : CallReq → Except String String :=
  fun c =>
    if c.id = "c1" then Except.error "transport closed"
    else Except.ok "B-payload"

theorem c4_witness :
    agent_loop two_call_model one_failing_tool 2 []
      = agent_loop two_call_model one_failing_tool 1
          [Turn.model "calling tools" [c1req, c2req],
           Turn.result "c1" false "transport closed",
           Turn.result "c2" true "B-payload"]
    ∧ execCall one_failing_tool c2req = Turn.result "c2" true "B-payload"
    ∧ agent_loop two_call_model one_failing_tool 2 []
      = some ("done",
          [Turn.model "calling tools" [c1req, c2req],
           Turn.result "c1" false "transport closed",
           Turn.result "c2" true "B-payload",
           Turn.model "done" []]) := by
  refine ⟨?_, c4_failed_call_keeps_siblings.2 one_failing_tool c2req
    "B-payload" rfl, by decide⟩
  have h := c4_failed_call_keeps_siblings.1 two_call_model one_failing_tool
    1 [] [] [c2req] c1req "transport closed" rfl rfl
  simpa [two_call_model, execCall, one_failing_tool, c1req, c2req] using h
